import Mathlib

/-!
Shallow embedding of the checkbox widget module
(src/gradio/components/checkbox.py): the sentinel resolution performed by the
constructor, the forwarding of the configuration bundle to the base widget
initializer, and the two interpretation operations.
-/

namespace Gradio

/-- Modelled from the spec: the "use default" sentinel mechanism.  The
definitions of the sentinel class and of the resolver live in gradio.blocks,
which is not part of this excerpt; the spec describes a tagged option type
distinguishing the unset/use-default case from an explicit value.  The
sentinel carries the declared default it stands for. -/
inductive DefaultOr (α : Type) where
  | sentinel (d : α) : DefaultOr α
  | explicit (v : α) : DefaultOr α

/-- Modelled from the spec: resolution of a defaultable parameter.  The
sentinel resolves to the declared default it carries; an explicit value is
returned unchanged. -/
def get {α : Type} : DefaultOr α → α
  | DefaultOr.sentinel d => d
  | DefaultOr.explicit v => v

/-- Whether a runtime parameter slot still holds the unresolved sentinel. -/
def DefaultOr.isSentinel {α : Type} : DefaultOr α → Bool
  | DefaultOr.sentinel _ => true
  | DefaultOr.explicit _ => false

/-- The domain of the value parameter as annotated in the source signature:
a boolean, a callable producing the boolean on invocation, or an explicit
absent value. -/
inductive CheckboxValue where
  | boolean (b : Bool) : CheckboxValue
  | callable (f : Unit → Bool) : CheckboxValue
  | null : CheckboxValue

/-- The constructor parameters of the checkbox widget, with the types of the
source signature.  The refresh cadence is a number of seconds; extra keyword
arguments are an association list. -/
structure InitArgs where
  value : DefaultOr CheckboxValue
  label : DefaultOr (Option String)
  info : DefaultOr (Option String)
  every : DefaultOr (Option ℚ)
  show_label : DefaultOr (Option Bool)
  container : DefaultOr (Option Bool)
  scale : DefaultOr (Option Int)
  min_width : DefaultOr (Option Int)
  interactive : DefaultOr (Option Bool)
  visible : DefaultOr Bool
  elem_id : DefaultOr (Option String)
  elem_classes : DefaultOr (Option (Sum (List String) String))
  kwargs : List (String × String)

/-- The declared defaults of the constructor signature: every defaultable
parameter starts as the sentinel wrapping its stated default. -/
def defaultArgs : InitArgs where
  value := DefaultOr.sentinel (CheckboxValue.boolean false)
  label := DefaultOr.sentinel none
  info := DefaultOr.sentinel none
  every := DefaultOr.sentinel none
  show_label := DefaultOr.sentinel none
  container := DefaultOr.sentinel (some true)
  scale := DefaultOr.sentinel none
  min_width := DefaultOr.sentinel (some 160)
  interactive := DefaultOr.sentinel none
  visible := DefaultOr.sentinel true
  elem_id := DefaultOr.sentinel none
  elem_classes := DefaultOr.sentinel none
  kwargs := []

/-- The argument bundle the constructor forwards to the base widget
initializer.  Each slot holds either a still-unresolved sentinel or a plain
value (the explicit case of the union). -/
structure IOComponentArgs where
  label : DefaultOr (Option String)
  info : DefaultOr (Option String)
  every : DefaultOr (Option ℚ)
  show_label : DefaultOr (Option Bool)
  container : DefaultOr (Option Bool)
  scale : DefaultOr (Option Int)
  min_width : DefaultOr (Option Int)
  interactive : DefaultOr (Option Bool)
  visible : DefaultOr Bool
  elem_id : DefaultOr (Option String)
  elem_classes : DefaultOr (Option (Sum (List String) String))
  value : DefaultOr CheckboxValue
  kwargs : List (String × String)

/-- The constructor body: the resolver is applied to value, container, scale,
min_width and visible, and then every parameter is forwarded to the base
widget initializer. -/
def checkboxInit (args : InitArgs) : IOComponentArgs where
  label := args.label
  info := args.info
  every := args.every
  show_label := args.show_label
  container := DefaultOr.explicit (get args.container)
  scale := DefaultOr.explicit (get args.scale)
  min_width := DefaultOr.explicit (get args.min_width)
  interactive := args.interactive
  visible := DefaultOr.explicit (get args.visible)
  elem_id := args.elem_id
  elem_classes := args.elem_classes
  value := DefaultOr.explicit (get args.value)
  kwargs := args.kwargs

/-- Modelled from the spec: the value stored by the base widget initializer,
an external collaborator not in this excerpt.  Per the data model and
lifecycle of the spec, an explicit boolean is stored as is and a callable is
invoked to produce the boolean; the spec says nothing about an explicit
absent value, which stays absent. -/
def resolvedStoredValue : CheckboxValue → Option Bool
  | CheckboxValue.boolean b => some b
  | CheckboxValue.callable f => some (f ())
  | CheckboxValue.null => none

/-- A constructed widget: the forwarded configuration bundle and the stored
resolved value. -/
structure CheckboxWidget where
  config : IOComponentArgs
  value : Option Bool

/-- End-to-end construction: resolve the constructor parameters, forward the
bundle, store the resolved value. -/
def mkCheckbox (args : InitArgs) : CheckboxWidget :=
  { config := checkboxInit args
    value := resolvedStoredValue (get (checkboxInit args).value) }

/-- The stored resolved value read back after construction. -/
def storedValue (args : InitArgs) : Option Bool := (mkCheckbox args).value

/-- The neighbor generation operation: the single perturbed value is the
negation of the current value, and the auxiliary keyword dictionary is
empty. -/
def get_interpretation_neighbors (x : Bool) :
    List Bool × List (String × String) :=
  ([!x], [])

/-- The score interpretation operation.  Both branches index the scores list
at position zero; indexing an empty list raises an out-of-range error, which
the embedding returns as the error case. -/
def get_interpretation_scores {ν σ κ : Type} (x : Bool) (neighbors : List ν)
    (scores : List σ) (kwargs : κ) : Except String (Option σ × Option σ) :=
  if x then
    match scores.get? 0 with
    | some s => Except.ok (some s, none)
    | none => Except.error "list index out of range"
  else
    match scores.get? 0 with
    | some s => Except.ok (none, some s)
    | none => Except.error "list index out of range"

/-- The neighbor generation method in state-passing form: the body reads no
field of the widget and assigns none, so the widget comes back unchanged. -/
def CheckboxWidget.get_interpretation_neighbors (self : CheckboxWidget)
    (x : Bool) : (List Bool × List (String × String)) × CheckboxWidget :=
  (Gradio.get_interpretation_neighbors x, self)

/-- The score interpretation method in state-passing form: the body reads no
field of the widget and assigns none, so the widget comes back unchanged. -/
def CheckboxWidget.get_interpretation_scores {ν σ κ : Type}
    (self : CheckboxWidget) (x : Bool) (neighbors : List ν) (scores : List σ)
    (kwargs : κ) : Except String (Option σ × Option σ) × CheckboxWidget :=
  (Gradio.get_interpretation_scores x neighbors scores kwargs, self)

/-- Claim C1, counterexample: with original value True and scores [1], the
code returns the pair (some 1, none), not (none, some 1) as the claim
states. -/
theorem claim_C1_counterexample :
    get_interpretation_scores true ([] : List Bool) [(1 : Int)] ()
      ≠ Except.ok ((none : Option Int), some (1 : Int)) := by
  simp [get_interpretation_scores]

/-- Claim C1, amended: for every score s, with original value True and scores
[s] the result is the pair (s, absent), and with original value False and
scores [s] it is (absent, s). -/
theorem claim_C1_amended {ν σ κ : Type} (s : σ) (neighbors : List ν)
    (kwargs : κ) :
    get_interpretation_scores true neighbors [s] kwargs =
        Except.ok (some s, none) ∧
      get_interpretation_scores false neighbors [s] kwargs =
        Except.ok (none, some s) :=
  ⟨rfl, rfl⟩

/-- Claim C2: for every boolean x, neighbor generation produces exactly one
neighbor, the logical negation of x, together with an empty auxiliary
mapping. -/
theorem claim_C2 (x : Bool) :
    (get_interpretation_neighbors x).1.length = 1 ∧
      (get_interpretation_neighbors x).1 = [!x] ∧
      (get_interpretation_neighbors x).2 = [] ∧
      get_interpretation_neighbors true = ([false], []) ∧
      get_interpretation_neighbors false = ([true], []) :=
  ⟨rfl, rfl, rfl, rfl, rfl⟩

/-- Claim C3: for every boolean x and one-element score list [s], the result
is a pair in which exactly one slot holds s and the other is absent, the slot
selected by whether x is True or False. -/
theorem claim_C3 {ν σ κ : Type} (x : Bool) (s : σ) (neighbors : List ν)
    (kwargs : κ) :
    get_interpretation_scores x neighbors [s] kwargs =
      Except.ok (if x then (some s, none) else (none, some s)) := by
  cases x <;> rfl

/-- Claim C4: constructing with an explicit boolean b and reading back the
resolved value yields exactly b. -/
theorem claim_C4 (b : Bool) :
    storedValue
        { defaultArgs with
            value := DefaultOr.explicit (CheckboxValue.boolean b) } =
      some b :=
  rfl

/-- Claim C5: constructing with no value argument resolves the value to
False, and with no cadence argument the forwarded cadence slot resolves to
the absent cadence. -/
theorem claim_C5 :
    storedValue defaultArgs = some false ∧
      get (checkboxInit defaultArgs).every = none :=
  ⟨rfl, rfl⟩

/-- Claim C6, counterexample: constructing with every argument left to its
default, the bundle forwarded to the base initializer still holds the
unresolved sentinel in the label, info, every, show_label, interactive,
elem_id and elem_classes slots, refuting that no sentinel is passed on. -/
theorem claim_C6_counterexample :
    ((checkboxInit defaultArgs).label).isSentinel = true ∧
      ((checkboxInit defaultArgs).info).isSentinel = true ∧
      ((checkboxInit defaultArgs).every).isSentinel = true ∧
      ((checkboxInit defaultArgs).show_label).isSentinel = true ∧
      ((checkboxInit defaultArgs).interactive).isSentinel = true ∧
      ((checkboxInit defaultArgs).elem_id).isSentinel = true ∧
      ((checkboxInit defaultArgs).elem_classes).isSentinel = true :=
  ⟨rfl, rfl, rfl, rfl, rfl, rfl, rfl⟩

/-- Claim C6, amended: for every constructor input, the value, container,
scale, min_width and visible slots of the forwarded bundle are resolved and
never the sentinel, while label, info, every, show_label, interactive,
elem_id and elem_classes are forwarded unchanged. -/
theorem claim_C6_amended (args : InitArgs) :
    ((checkboxInit args).value).isSentinel = false ∧
      ((checkboxInit args).container).isSentinel = false ∧
      ((checkboxInit args).scale).isSentinel = false ∧
      ((checkboxInit args).min_width).isSentinel = false ∧
      ((checkboxInit args).visible).isSentinel = false ∧
      (checkboxInit args).label = args.label ∧
      (checkboxInit args).info = args.info ∧
      (checkboxInit args).every = args.every ∧
      (checkboxInit args).show_label = args.show_label ∧
      (checkboxInit args).interactive = args.interactive ∧
      (checkboxInit args).elem_id = args.elem_id ∧
      (checkboxInit args).elem_classes = args.elem_classes :=
  ⟨rfl, rfl, rfl, rfl, rfl, rfl, rfl, rfl, rfl, rfl, rfl, rfl⟩

/-- Claim C7: for every constructor input whose value parameter is an
explicit boolean, a callable, or the use-default sentinel, the stored
resolved value after initialization is a boolean. -/
theorem claim_C7 (args : InitArgs) (b : Bool) (f : Unit → Bool)
    (h : args.value = DefaultOr.explicit (CheckboxValue.boolean b) ∨
      args.value = DefaultOr.explicit (CheckboxValue.callable f) ∨
      args.value = DefaultOr.sentinel (CheckboxValue.boolean b)) :
    ∃ c : Bool, storedValue args = some c := by
  have hs : storedValue args = resolvedStoredValue (get args.value) := rfl
  rcases h with h | h | h
  · exact ⟨b, by rw [hs, h]; rfl⟩
  · exact ⟨f (), by rw [hs, h]; rfl⟩
  · exact ⟨b, by rw [hs, h]; rfl⟩

/-- Witness for claim C7 at the declared defaults, whose value parameter is
the sentinel wrapping False. -/
theorem claim_C7_witness : ∃ c : Bool, storedValue defaultArgs = some c :=
  claim_C7 defaultArgs false (fun _ => false) (Or.inr (Or.inr rfl))

/-- Claim C8: neither interpretation method mutates any field of the widget:
for every widget state and every input, the state returned alongside the
result is the state passed in. -/
theorem claim_C8 {ν σ κ : Type} (self : CheckboxWidget) (x : Bool)
    (neighbors : List ν) (scores : List σ) (kwargs : κ) :
    (self.get_interpretation_neighbors x).2 = self ∧
      (self.get_interpretation_scores x neighbors scores kwargs).2 = self :=
  ⟨rfl, rfl⟩

/-- Claim C9: for every original value, score interpretation fails with the
out-of-range indexing error exactly when the scores list is empty, and under
the precondition that it is non-empty the indexing is in bounds and a result
pair is returned. -/
theorem claim_C9 {ν σ κ : Type} (x : Bool) (neighbors : List ν)
    (scores : List σ) (kwargs : κ) :
    (scores = [] →
        get_interpretation_scores x neighbors scores kwargs =
          Except.error "list index out of range") ∧
      (scores ≠ [] →
        ∃ p, get_interpretation_scores x neighbors scores kwargs =
          Except.ok p) := by
  constructor
  · intro h
    subst h
    cases x <;> rfl
  · intro h
    cases scores with
    | nil => exact absurd rfl h
    | cons s rest =>
      cases x
      · exact ⟨(none, some s), rfl⟩
      · exact ⟨(some s, none), rfl⟩

/-- Witness for claim C9: the error case at empty scores and the ok case at a
concrete non-empty scores list. -/
theorem claim_C9_witness :
    get_interpretation_scores true ([] : List Bool) ([] : List Int) () =
        Except.error "list index out of range" ∧
      (∃ p, get_interpretation_scores true ([] : List Bool) [(1 : Int)] () =
        Except.ok p) :=
  ⟨(claim_C9 true [] [] ()).1 rfl,
    (claim_C9 true [] [(1 : Int)] ()).2 (List.cons_ne_nil 1 [])⟩

/-- Claim C10: the result of score interpretation depends only on x and the
first score: two calls agreeing on those but differing in the neighbors
argument, the later scores and the extra keyword argument return equal
pairs. -/
theorem claim_C10 {ν₁ ν₂ σ κ₁ κ₂ : Type} (x : Bool) (s : σ)
    (ns₁ : List ν₁) (ns₂ : List ν₂) (rest₁ rest₂ : List σ)
    (k₁ : κ₁) (k₂ : κ₂) :
    get_interpretation_scores x ns₁ (s :: rest₁) k₁ =
      get_interpretation_scores x ns₂ (s :: rest₂) k₂ := by
  cases x <;> rfl

end Gradio
